import Mathlib

/-!
Verification development for the MedProSana backend worker
(`worker.js`, fixed version: the handler that strips the leading `api`
segment and uses `created_at` timestamps), against the database schema
of `db.sql`.

The worker is a stateless request router over a relational store with
four tables (Patients, Protocols, Medications, LabResults).  We embed
the store as lists of rows, SQL timestamps (`CURRENT_TIMESTAMP`) as a
`Nat` parameter `now`, and D1 query failure as an oracle
`dbFail : Nat → Option String` giving, for the n-th query executed by a
request, either `none` (success) or `some m` (the underlying D1 error
message).  JSON request bodies are embedded as records of
`Option String` fields (`none` = field absent / `undefined`; an absent
field bound into a SQL statement is stored as NULL).
-/

namespace MedProSana

/-- HTTP methods the worker distinguishes. -/
inductive Method where
  | GET
  | POST
  | PUT
  | DELETE
  | OPTIONS
deriving DecidableEq

/-- A row of the Patients table (`db.sql`): id, name, familyname, birthdate.
`created_at` is never read by any route, so it is omitted. -/
structure Patient where
  id : Int
  name : String
  familyname : String
  birthdate : String
deriving DecidableEq

/-- A row of the Protocols table: five nullable text fields keyed by
patient_id, plus the update timestamp. -/
structure ProtocolRow where
  patient_id : Int
  dialyzer : Option String
  access : Option String
  dialysateFlow : Option String
  bloodFlow : Option String
  duration : Option String
  updated_at : Nat
deriving DecidableEq

/-- A row of the Medications table. -/
structure MedRow where
  id : Int
  patient_id : Int
  name : String
  dosage : String
  created_at : Nat
deriving DecidableEq

/-- A row of the LabResults table. -/
structure LabRow where
  id : Int
  patient_id : Int
  name : String
  result : String
  created_at : Nat
deriving DecidableEq

/-- The relational store: the four tables plus the AUTOINCREMENT
counters that assign fresh row ids. -/
structure Store where
  patients : List Patient
  protocols : List ProtocolRow
  medications : List MedRow
  labResults : List LabRow
  nextPatientId : Int
  nextMedId : Int
  nextLabId : Int
deriving DecidableEq

/-- Shapes of the JSON response bodies the worker produces. -/
inductive RespBody where
  | empty
  | text (s : String)
  | errorObj (msg : String)
  | serverError (msg : String)
  | patientsList (l : List Patient)
  | patientObj (p : Patient)
  | medsList (l : List MedRow)
  | labsList (l : List LabRow)
  | protocolObj (p : Option ProtocolRow)
  | successTrue
deriving DecidableEq

/-- An HTTP response: status code and body.  `serverError msg` stands
for the JSON object with the fixed label field `error` set to
"Internal Server Error" and the field `message` set to `msg`;
`protocolObj none` stands for the empty object. -/
structure Response where
  status : Nat
  body : RespBody
deriving DecidableEq

/-- A parsed JSON request body: each field the worker ever destructures,
`none` when absent. -/
structure Body where
  name : Option String
  familyname : Option String
  birthdate : Option String
  dosage : Option String
  result : Option String
  dialyzer : Option String
  access : Option String
  dialysateFlow : Option String
  bloodFlow : Option String
  duration : Option String
deriving DecidableEq

/-- JS truthiness of a destructured JSON string field: `undefined` and
the empty string are falsy, every other string is truthy. -/
def jsTruthy : Option String → Bool
  | none => false
  | some s => !(s == "")

/-- Value of the longest digit run at the head of the character list. -/
def digitsVal : List Char → Nat → Nat
  | [], acc => acc
  | c :: cs, acc => if c.isDigit then digitsVal cs (acc * 10 + (c.toNat - 48)) else acc

/-- `some` of the leading digit run when the list starts with a digit. -/
def leadingNat : List Char → Option Nat
  | [] => none
  | c :: cs => if c.isDigit then some (digitsVal (c :: cs) 0) else none

/-- Model of JavaScript `parseInt(s)` in base 10: an optional sign
followed by leading decimal digits; `none` models `NaN`. -/
def parseIntJS (s : String) : Option Int :=
  match s.data with
  | '-' :: cs => (leadingNat cs).map (fun n => -(n : Int))
  | '+' :: cs => (leadingNat cs).map (fun n => (n : Int))
  | cs => (leadingNat cs).map (fun n => (n : Int))

/-- The fixed default protocol seeded for every new patient
(`DEFAULT_PROTOCOL` in `worker.js`). -/
structure ProtocolDefaults where
  dialyzer : String
  access : String
  dialysateFlow : String
  bloodFlow : String
  duration : String

def DEFAULT_PROTOCOL : ProtocolDefaults :=
  { dialyzer := "F8HPS"
    access := "Fistula"
    dialysateFlow := "500 ml/min"
    bloodFlow := "300 ml/min"
    duration := "4 hours" }

/-- `executeQuery` in `worker.js`: a failing D1 call with message `m` is
re-thrown as an error whose message is "Database error: " ++ m; a
successful call returns its result. -/
def executeQuery (verdict : Option String) (res : α) : Except String α :=
  match verdict with
  | none => Except.ok res
  | some m => Except.error ("Database error: " ++ m)

/-- Run one query under the failure oracle, recording the store at the
moment of the throw in the error. -/
def runQuery (verdict : Option String) (st : Store) (res : α) :
    Except (String × Store) α :=
  match executeQuery verdict res with
  | Except.ok x => Except.ok x
  | Except.error m => Except.error (m, st)

/-- Ordering used by `ORDER BY familyname ASC` on the Patients table. -/
def famOrder (a b : Patient) : Prop := a.familyname ≤ b.familyname

instance : DecidableRel famOrder := fun a b =>
  inferInstanceAs (Decidable (a.familyname ≤ b.familyname))

/-- `a` was created no earlier than `b` (the `ORDER BY created_at DESC`
relation, with `f` projecting the creation timestamp). -/
def createdAfter (f : α → Nat) (a b : α) : Prop := f b ≤ f a

instance (f : α → Nat) : DecidableRel (createdAfter f) := fun a b =>
  inferInstanceAs (Decidable (f b ≤ f a))

instance (f : α → Nat) : IsTotal α (createdAfter f) :=
  ⟨fun a b => Nat.le_total (f b) (f a)⟩

instance (f : α → Nat) : IsTrans α (createdAfter f) :=
  ⟨fun _ _ _ h1 h2 => Nat.le_trans h2 h1⟩

/-- Medications of one patient, in table (insertion) order:
`SELECT * FROM Medications WHERE patient_id = ?`. -/
def medsFor (st : Store) (n : Int) : List MedRow :=
  st.medications.filter (fun r => r.patient_id == n)

/-- The medications list as returned by the route:
`... ORDER BY created_at DESC`. -/
def sortedMedsFor (st : Store) (n : Int) : List MedRow :=
  List.insertionSort (createdAfter MedRow.created_at) (medsFor st n)

/-- Lab results of one patient, in table order. -/
def labsFor (st : Store) (n : Int) : List LabRow :=
  st.labResults.filter (fun r => r.patient_id == n)

/-- The lab-results list as returned by the route, most recent first. -/
def sortedLabsFor (st : Store) (n : Int) : List LabRow :=
  List.insertionSort (createdAfter LabRow.created_at) (labsFor st n)

/-- Protocols rows of one patient, in table order. -/
def protocolsFor (st : Store) (n : Int) : List ProtocolRow :=
  st.protocols.filter (fun r => r.patient_id == n)

/-- Route `GET /api/patients`. -/
def getPatientsRoute (st : Store) (dbFail : Nat → Option String) :
    Except (String × Store) (Response × Store) :=
  match runQuery (dbFail 0) st (List.insertionSort famOrder st.patients) with
  | Except.error e => Except.error e
  | Except.ok ps => Except.ok (⟨200, RespBody.patientsList ps⟩, st)

/-- Route `POST /api/patients`: presence check on name, familyname,
birthdate; insert the patient; insert the default protocol row. -/
def postPatientRoute (b : Body) (st : Store) (now : Nat)
    (dbFail : Nat → Option String) :
    Except (String × Store) (Response × Store) :=
  if jsTruthy b.name && jsTruthy b.familyname && jsTruthy b.birthdate then
    match runQuery (dbFail 0) st () with
    | Except.error e => Except.error e
    | Except.ok _ =>
      let pid := st.nextPatientId
      let p : Patient :=
        ⟨pid, b.name.getD "", b.familyname.getD "", b.birthdate.getD ""⟩
      let st1 : Store :=
        { st with patients := st.patients ++ [p], nextPatientId := pid + 1 }
      match runQuery (dbFail 1) st1 () with
      | Except.error e => Except.error e
      | Except.ok _ =>
        let prot : ProtocolRow :=
          ⟨pid, some DEFAULT_PROTOCOL.dialyzer, some DEFAULT_PROTOCOL.access,
            some DEFAULT_PROTOCOL.dialysateFlow, some DEFAULT_PROTOCOL.bloodFlow,
            some DEFAULT_PROTOCOL.duration, now⟩
        let st2 : Store := { st1 with protocols := st1.protocols ++ [prot] }
        Except.ok (⟨201, RespBody.patientObj p⟩, st2)
  else
    Except.ok (⟨400, RespBody.errorObj "Missing fields"⟩, st)

/-- Route `GET /api/patients/:id`: 404 when the result set is empty,
otherwise the first result. -/
def getPatientRoute (n : Int) (st : Store) (dbFail : Nat → Option String) :
    Except (String × Store) (Response × Store) :=
  match runQuery (dbFail 0) st (st.patients.filter (fun p => p.id == n)) with
  | Except.error e => Except.error e
  | Except.ok results =>
    match results with
    | [] => Except.ok (⟨404, RespBody.errorObj "Patient not found"⟩, st)
    | p :: _ => Except.ok (⟨200, RespBody.patientObj p⟩, st)

/-- Route `GET /api/patients/:id/medications`. -/
def getMedicationsRoute (n : Int) (st : Store) (dbFail : Nat → Option String) :
    Except (String × Store) (Response × Store) :=
  match runQuery (dbFail 0) st (sortedMedsFor st n) with
  | Except.error e => Except.error e
  | Except.ok l => Except.ok (⟨200, RespBody.medsList l⟩, st)

/-- Route `POST /api/patients/:id/medications`. -/
def postMedicationRoute (n : Int) (b : Body) (st : Store) (now : Nat)
    (dbFail : Nat → Option String) :
    Except (String × Store) (Response × Store) :=
  if jsTruthy b.name && jsTruthy b.dosage then
    match runQuery (dbFail 0) st () with
    | Except.error e => Except.error e
    | Except.ok _ =>
      let row : MedRow :=
        ⟨st.nextMedId, n, b.name.getD "", b.dosage.getD "", now⟩
      let st1 : Store :=
        { st with medications := st.medications ++ [row],
                  nextMedId := st.nextMedId + 1 }
      Except.ok (⟨201, RespBody.successTrue⟩, st1)
  else
    Except.ok (⟨400, RespBody.errorObj "Missing fields"⟩, st)

/-- Route `GET /api/patients/:id/labs`. -/
def getLabsRoute (n : Int) (st : Store) (dbFail : Nat → Option String) :
    Except (String × Store) (Response × Store) :=
  match runQuery (dbFail 0) st (sortedLabsFor st n) with
  | Except.error e => Except.error e
  | Except.ok l => Except.ok (⟨200, RespBody.labsList l⟩, st)

/-- Route `POST /api/patients/:id/labs`. -/
def postLabRoute (n : Int) (b : Body) (st : Store) (now : Nat)
    (dbFail : Nat → Option String) :
    Except (String × Store) (Response × Store) :=
  if jsTruthy b.name && jsTruthy b.result then
    match runQuery (dbFail 0) st () with
    | Except.error e => Except.error e
    | Except.ok _ =>
      let row : LabRow :=
        ⟨st.nextLabId, n, b.name.getD "", b.result.getD "", now⟩
      let st1 : Store :=
        { st with labResults := st.labResults ++ [row],
                  nextLabId := st.nextLabId + 1 }
      Except.ok (⟨201, RespBody.successTrue⟩, st1)
  else
    Except.ok (⟨400, RespBody.errorObj "Missing fields"⟩, st)

/-- Route `GET /api/patients/:id/protocol`: the first result or the
empty object. -/
def getProtocolRoute (n : Int) (st : Store) (dbFail : Nat → Option String) :
    Except (String × Store) (Response × Store) :=
  match runQuery (dbFail 0) st (protocolsFor st n) with
  | Except.error e => Except.error e
  | Except.ok results =>
    Except.ok (⟨200, RespBody.protocolObj results.head?⟩, st)

/-- The in-place update performed by `PUT /api/patients/:id/protocol` on
one Protocols row. -/
def protocolUpdate (n : Int) (b : Body) (now : Nat) (r : ProtocolRow) :
    ProtocolRow :=
  if r.patient_id == n then
    { r with dialyzer := b.dialyzer, access := b.access,
             dialysateFlow := b.dialysateFlow, bloodFlow := b.bloodFlow,
             duration := b.duration, updated_at := now }
  else r

/-- Route `PUT /api/patients/:id/protocol`: unconditionally overwrite
the five fields of every row with this patient_id and return 204. -/
def putProtocolRoute (n : Int) (b : Body) (st : Store) (now : Nat)
    (dbFail : Nat → Option String) :
    Except (String × Store) (Response × Store) :=
  match runQuery (dbFail 0) st () with
  | Except.error e => Except.error e
  | Except.ok _ =>
    let st1 : Store :=
      { st with protocols := st.protocols.map (protocolUpdate n b now) }
    Except.ok (⟨204, RespBody.empty⟩, st1)

/-- The fall-through response of the router. -/
def routeNotFound (st : Store) : Response × Store :=
  (⟨404, RespBody.errorObj "Route not found"⟩, st)

/-- The try-block of `handleRequest`: dispatch on the path segments
after the leading `api` segment and the HTTP method, mirroring the
nested conditionals of the source router. -/
def routeRequest (m : Method) (rest : List String) (b : Body) (st : Store)
    (now : Nat) (dbFail : Nat → Option String) :
    Except (String × Store) (Response × Store) :=
  match rest with
  | [s0] =>
    if s0 = "patients" then
      if m = Method.GET then getPatientsRoute st dbFail
      else if m = Method.POST then postPatientRoute b st now dbFail
      else Except.ok (routeNotFound st)
    else Except.ok (routeNotFound st)
  | s0 :: idStr :: rest2 =>
    if s0 = "patients" then
      match parseIntJS idStr with
      | none => Except.ok (routeNotFound st)
      | some n =>
        match rest2 with
        | [] =>
          if m = Method.GET then getPatientRoute n st dbFail
          else Except.ok (routeNotFound st)
        | [sub] =>
          if sub = "medications" then
            if m = Method.GET then getMedicationsRoute n st dbFail
            else if m = Method.POST then postMedicationRoute n b st now dbFail
            else Except.ok (routeNotFound st)
          else if sub = "labs" then
            if m = Method.GET then getLabsRoute n st dbFail
            else if m = Method.POST then postLabRoute n b st now dbFail
            else Except.ok (routeNotFound st)
          else if sub = "protocol" then
            if m = Method.GET then getProtocolRoute n st dbFail
            else if m = Method.PUT then putProtocolRoute n b st now dbFail
            else Except.ok (routeNotFound st)
          else Except.ok (routeNotFound st)
        | _ :: _ :: _ => Except.ok (routeNotFound st)
    else Except.ok (routeNotFound st)
  | [] => Except.ok (routeNotFound st)

/-- `handleRequest` in `worker.js`: answer OPTIONS preflight, reject
paths outside `/api`, strip the `api` segment, run the router inside the
try-block, and turn a thrown error into a 500 response carrying the
error message. -/
def handleRequest (m : Method) (segs : List String) (b : Body) (st : Store)
    (now : Nat) (dbFail : Nat → Option String) : Response × Store :=
  if m = Method.OPTIONS then (⟨204, RespBody.empty⟩, st)
  else if segs.head? ≠ some "api" then (⟨404, RespBody.text "Not Found"⟩, st)
  else
    match routeRequest m (segs.drop 1) b st now dbFail with
    | Except.ok r => r
    | Except.error (msg, st1) => (⟨500, RespBody.serverError msg⟩, st1)

/-- The all-queries-succeed oracle. -/
def noFail : Nat → Option String := fun _ => none

/-- A body with every field absent. -/
def emptyBody : Body :=
  ⟨none, none, none, none, none, none, none, none, none, none⟩

/-- The empty store, as created by `db.sql` (AUTOINCREMENT starts at 1). -/
def emptyStore : Store := ⟨[], [], [], [], 1, 1, 1⟩

/-- Which method/path pairs (path after the `api` segment) reach a route
handler of the worker. -/
def routeMatches (m : Method) (rest : List String) : Bool :=
  match rest with
  | ["patients"] => m = Method.GET || m = Method.POST
  | ["patients", idStr] => (parseIntJS idStr).isSome && m = Method.GET
  | ["patients", idStr, sub] =>
    (parseIntJS idStr).isSome &&
      ((sub == "medications" && (m = Method.GET || m = Method.POST)) ||
       (sub == "labs" && (m = Method.GET || m = Method.POST)) ||
       (sub == "protocol" && (m = Method.GET || m = Method.PUT)))
  | _ => false

/-- Protocol-id well-formedness: every Protocols row carries a patient
id already allocated (below the AUTOINCREMENT counter).  Every store
reachable from `emptyStore` satisfies this. -/
def Store.WFProtocolIds (st : Store) : Prop :=
  ∀ r ∈ st.protocols, r.patient_id < st.nextPatientId

/-- Adjacency form of "most recent first": each element was created no
later than its predecessor. -/
def adjacentDesc (f : α → Nat) (l : List α) : Prop :=
  ∀ i, (h : i + 1 < l.length) →
    f (l.get ⟨i + 1, h⟩) ≤ f (l.get ⟨i, Nat.lt_of_succ_lt h⟩)

/-- Erase the update timestamp of a Protocols row. -/
def eraseTs (r : ProtocolRow) : ProtocolRow := { r with updated_at := 0 }

/-- Every row of `l` with this patient id carries exactly the five
protocol fields of the body `b` (absent fields stored as NULL). -/
def overwritten (n : Int) (b : Body) (l : List ProtocolRow) : Prop :=
  ∀ r ∈ l, r.patient_id = n →
    r.dialyzer = b.dialyzer ∧ r.access = b.access ∧
    r.dialysateFlow = b.dialysateFlow ∧ r.bloodFlow = b.bloodFlow ∧
    r.duration = b.duration

/-- The store a router outcome leaves behind, for a normal response or
for a throw. -/
def resultStore : Except (String × Store) (Response × Store) → Store
  | Except.ok (_, st1) => st1
  | Except.error (_, st1) => st1

/-- `st ⟶ st1` only appends to Patients, Medications and LabResults. -/
def appendsOnly (st st1 : Store) : Prop :=
  (∃ ps, st1.patients = st.patients ++ ps) ∧
  (∃ ms, st1.medications = st.medications ++ ms) ∧
  (∃ ls, st1.labResults = st.labResults ++ ls)

/-- The first element of a filtered list is the first element
satisfying the predicate. -/
theorem filter_head_find (p : α → Bool) (l : List α) :
    (l.filter p).head? = l.find? p := by
  induction l with
  | nil => rfl
  | cons a t ih =>
    cases hpa : p a <;> simp [List.filter_cons, List.find?_cons, hpa, ih]

/-- A list sorted by `createdAfter f` is descending at every adjacent
pair. -/
theorem sorted_adjacentDesc (f : α → Nat) (l : List α)
    (h : List.Sorted (createdAfter f) l) : adjacentDesc f l := by
  intro i hi
  have hij := List.pairwise_iff_get.mp h ⟨i, Nat.lt_of_succ_lt hi⟩ ⟨i + 1, hi⟩
    (by simp [Fin.lt_def])
  exact hij

/-- C5: a POST /api/patients whose body lacks a truthy name, familyname
or birthdate is answered with status 400 and leaves the store
completely unchanged — no Patients row and no Protocols row is
inserted. -/
theorem post_patient_missing_fields_400 (b : Body) (st : Store) (now : Nat)
    (dbFail : Nat → Option String)
    (h : (jsTruthy b.name && jsTruthy b.familyname && jsTruthy b.birthdate) = false) :
    handleRequest Method.POST ["api", "patients"] b st now dbFail =
      (⟨400, RespBody.errorObj "Missing fields"⟩, st) := by
  simp [handleRequest, routeRequest, postPatientRoute, h]

/-- Witness for C5: the all-absent body at the empty store. -/
theorem post_patient_missing_fields_400_witness :
    ((jsTruthy emptyBody.name && jsTruthy emptyBody.familyname &&
        jsTruthy emptyBody.birthdate) = false) ∧
    handleRequest Method.POST ["api", "patients"] emptyBody emptyStore 0 noFail =
      (⟨400, RespBody.errorObj "Missing fields"⟩, emptyStore) :=
  ⟨by decide,
    post_patient_missing_fields_400 emptyBody emptyStore 0 noFail (by decide)⟩

/-- C9: a GET /api/patients/:id/protocol for a patient id with no
Protocols row (in particular a patient that does not exist) is answered
with status 200 and the empty object, not 404. -/
theorem get_protocol_missing_row_200 (s : String) (n : Int) (b : Body) (st : Store)
    (now : Nat) (hs : parseIntJS s = some n)
    (hnone : protocolsFor st n = []) :
    handleRequest Method.GET ["api", "patients", s, "protocol"] b st now noFail =
      (⟨200, RespBody.protocolObj none⟩, st) := by
  simp [handleRequest, routeRequest, hs, getProtocolRoute, runQuery, executeQuery,
    noFail, hnone]

/-- Witness for C9: patient id 1 at the empty store. -/
theorem get_protocol_missing_row_200_witness :
    (parseIntJS "1" = some 1) ∧ (protocolsFor emptyStore 1 = []) ∧
    handleRequest Method.GET ["api", "patients", "1", "protocol"] emptyBody
        emptyStore 0 noFail = (⟨200, RespBody.protocolObj none⟩, emptyStore) :=
  ⟨by decide, rfl,
    get_protocol_missing_row_200 "1" 1 emptyBody emptyStore 0 (by decide) rfl⟩

/-- C2: a GET /api/patients/:id is answered with 404 and an error body
when no patient with that id is stored, and with 200 and the stored
patient when one is; never 200 with empty data. -/
theorem get_patient_404_or_200 (s : String) (n : Int) (b : Body) (st : Store)
    (now : Nat) (hs : parseIntJS s = some n) :
    handleRequest Method.GET ["api", "patients", s] b st now noFail =
      ((match st.patients.find? (fun p => p.id == n) with
        | none => ⟨404, RespBody.errorObj "Patient not found"⟩
        | some p => ⟨200, RespBody.patientObj p⟩), st) := by
  rw [← filter_head_find]
  cases hfl : st.patients.filter (fun p => p.id == n) with
  | nil =>
    simp [handleRequest, routeRequest, hs, getPatientRoute, runQuery,
      executeQuery, noFail, hfl]
  | cons p t =>
    simp [handleRequest, routeRequest, hs, getPatientRoute, runQuery,
      executeQuery, noFail, hfl]

/-- Witness for C2: a one-patient store, hit for the stored id. -/
theorem get_patient_404_or_200_witness :
    (parseIntJS "1" = some 1) ∧
    handleRequest Method.GET ["api", "patients", "1"] emptyBody
        ⟨[⟨1, "A", "B", "2000-01-01"⟩], [], [], [], 2, 1, 1⟩ 0 noFail =
      ((match (⟨[⟨1, "A", "B", "2000-01-01"⟩], [], [], [], 2, 1, 1⟩ : Store).patients.find?
            (fun p => p.id == (1 : Int)) with
        | none => ⟨404, RespBody.errorObj "Patient not found"⟩
        | some p => ⟨200, RespBody.patientObj p⟩),
       (⟨[⟨1, "A", "B", "2000-01-01"⟩], [], [], [], 2, 1, 1⟩ : Store)) :=
  ⟨by decide,
    get_patient_404_or_200 "1" 1 emptyBody
      ⟨[⟨1, "A", "B", "2000-01-01"⟩], [], [], [], 2, 1, 1⟩ 0 (by decide)⟩

/-- C7: when a data-access call throws during a request, the top-level
catch answers with status 500 and a body carrying the thrown error
message unmodified, next to the fixed "Internal Server Error" label. -/
theorem data_access_error_500 (m : Method) (segs : List String) (b : Body)
    (st st1 : Store) (now : Nat) (dbFail : Nat → Option String) (msg : String)
    (hm : m ≠ Method.OPTIONS)
    (hapi : segs.head? = some "api")
    (herr : routeRequest m (segs.drop 1) b st now dbFail =
      Except.error (msg, st1)) :
    handleRequest m segs b st now dbFail =
      (⟨500, RespBody.serverError msg⟩, st1) := by
  have herr2 : routeRequest m segs.tail b st now dbFail =
      Except.error (msg, st1) := by
    rw [← List.drop_one]; exact herr
  simp [handleRequest, hm, hapi, herr2]

/-- Witness for C7: a failing patients query whose D1 message "boom" is
wrapped by executeQuery and reported verbatim by the 500 response. -/
theorem data_access_error_500_witness :
    (Method.GET ≠ Method.OPTIONS) ∧
    ((["api", "patients"] : List String).head? = some "api") ∧
    (routeRequest Method.GET (["api", "patients"].drop 1) emptyBody emptyStore 0
        (fun _ => some "boom") =
      Except.error ("Database error: boom", emptyStore)) ∧
    handleRequest Method.GET ["api", "patients"] emptyBody emptyStore 0
        (fun _ => some "boom") =
      (⟨500, RespBody.serverError "Database error: boom"⟩, emptyStore) :=
  ⟨by decide, rfl, by rfl,
    data_access_error_500 Method.GET ["api", "patients"] emptyBody emptyStore
      emptyStore 0 (fun _ => some "boom") "Database error: boom" (by decide) rfl
      (by rfl)⟩

/-- C3: the medications and labs list endpoints answer 200 with exactly
the stored entries of that patient, ordered most-recent-first: at every
adjacent pair the later element was created no later than the earlier
one. -/
theorem med_lab_lists_most_recent_first (s : String) (n : Int) (b : Body)
    (st : Store) (now : Nat) (hs : parseIntJS s = some n) :
    handleRequest Method.GET ["api", "patients", s, "medications"] b st now noFail =
      (⟨200, RespBody.medsList (sortedMedsFor st n)⟩, st) ∧
    (sortedMedsFor st n).Perm (medsFor st n) ∧
    adjacentDesc MedRow.created_at (sortedMedsFor st n) ∧
    handleRequest Method.GET ["api", "patients", s, "labs"] b st now noFail =
      (⟨200, RespBody.labsList (sortedLabsFor st n)⟩, st) ∧
    (sortedLabsFor st n).Perm (labsFor st n) ∧
    adjacentDesc LabRow.created_at (sortedLabsFor st n) := by
  refine ⟨?_, List.perm_insertionSort _ _,
    sorted_adjacentDesc _ _ (List.sorted_insertionSort _ _), ?_,
    List.perm_insertionSort _ _,
    sorted_adjacentDesc _ _ (List.sorted_insertionSort _ _)⟩
  · simp [handleRequest, routeRequest, hs, getMedicationsRoute, runQuery,
      executeQuery, noFail]
  · simp [handleRequest, routeRequest, hs, getLabsRoute, runQuery,
      executeQuery, noFail]

/-- Witness for C3: patient 1 with two medications and two lab results
stored out of creation order. -/
theorem med_lab_lists_most_recent_first_witness :
    (parseIntJS "1" = some 1) ∧
    (handleRequest Method.GET ["api", "patients", "1", "medications"] emptyBody
        ⟨[⟨1, "A", "B", "2000-01-01"⟩], [],
          [⟨1, 1, "Aspirin", "100mg", 1⟩, ⟨2, 1, "Heparin", "500IU", 5⟩],
          [⟨1, 1, "K", "4.5", 2⟩, ⟨2, 1, "Hb", "11", 7⟩], 2, 3, 3⟩ 0 noFail =
      (⟨200, RespBody.medsList (sortedMedsFor
        ⟨[⟨1, "A", "B", "2000-01-01"⟩], [],
          [⟨1, 1, "Aspirin", "100mg", 1⟩, ⟨2, 1, "Heparin", "500IU", 5⟩],
          [⟨1, 1, "K", "4.5", 2⟩, ⟨2, 1, "Hb", "11", 7⟩], 2, 3, 3⟩ 1)⟩,
        ⟨[⟨1, "A", "B", "2000-01-01"⟩], [],
          [⟨1, 1, "Aspirin", "100mg", 1⟩, ⟨2, 1, "Heparin", "500IU", 5⟩],
          [⟨1, 1, "K", "4.5", 2⟩, ⟨2, 1, "Hb", "11", 7⟩], 2, 3, 3⟩)) ∧
    (sortedMedsFor
        ⟨[⟨1, "A", "B", "2000-01-01"⟩], [],
          [⟨1, 1, "Aspirin", "100mg", 1⟩, ⟨2, 1, "Heparin", "500IU", 5⟩],
          [⟨1, 1, "K", "4.5", 2⟩, ⟨2, 1, "Hb", "11", 7⟩], 2, 3, 3⟩ 1).Perm
      (medsFor
        ⟨[⟨1, "A", "B", "2000-01-01"⟩], [],
          [⟨1, 1, "Aspirin", "100mg", 1⟩, ⟨2, 1, "Heparin", "500IU", 5⟩],
          [⟨1, 1, "K", "4.5", 2⟩, ⟨2, 1, "Hb", "11", 7⟩], 2, 3, 3⟩ 1) ∧
    adjacentDesc MedRow.created_at (sortedMedsFor
        ⟨[⟨1, "A", "B", "2000-01-01"⟩], [],
          [⟨1, 1, "Aspirin", "100mg", 1⟩, ⟨2, 1, "Heparin", "500IU", 5⟩],
          [⟨1, 1, "K", "4.5", 2⟩, ⟨2, 1, "Hb", "11", 7⟩], 2, 3, 3⟩ 1) ∧
    adjacentDesc LabRow.created_at (sortedLabsFor
        ⟨[⟨1, "A", "B", "2000-01-01"⟩], [],
          [⟨1, 1, "Aspirin", "100mg", 1⟩, ⟨2, 1, "Heparin", "500IU", 5⟩],
          [⟨1, 1, "K", "4.5", 2⟩, ⟨2, 1, "Hb", "11", 7⟩], 2, 3, 3⟩ 1) := by
  have h := med_lab_lists_most_recent_first "1" 1 emptyBody
    ⟨[⟨1, "A", "B", "2000-01-01"⟩], [],
      [⟨1, 1, "Aspirin", "100mg", 1⟩, ⟨2, 1, "Heparin", "500IU", 5⟩],
      [⟨1, 1, "K", "4.5", 2⟩, ⟨2, 1, "Hb", "11", 7⟩], 2, 3, 3⟩ 0 (by decide)
  exact ⟨by decide, h.1, h.2.1, h.2.2.1, h.2.2.2.2.2⟩

/-- C1: a POST /api/patients with truthy name, familyname and birthdate
answers 201 with the new patient and its assigned id, inserts exactly
one Protocols row for that id holding the fixed defaults, and a
subsequent GET of that patient's protocol returns exactly those
values. -/
theorem post_patient_seeds_default_protocol
    (b b2 : Body) (st : Store) (now t2 : Nat) (nm fam bd s : String)
    (hn : b.name = some nm) (hn2 : nm ≠ "")
    (hf : b.familyname = some fam) (hf2 : fam ≠ "")
    (hb : b.birthdate = some bd) (hb2 : bd ≠ "")
    (hwf : st.WFProtocolIds)
    (hs : parseIntJS s = some st.nextPatientId) :
    (handleRequest Method.POST ["api", "patients"] b st now noFail).1 =
      ⟨201, RespBody.patientObj ⟨st.nextPatientId, nm, fam, bd⟩⟩ ∧
    protocolsFor (handleRequest Method.POST ["api", "patients"] b st now noFail).2
        st.nextPatientId =
      [⟨st.nextPatientId, some "F8HPS", some "Fistula", some "500 ml/min",
        some "300 ml/min", some "4 hours", now⟩] ∧
    handleRequest Method.GET ["api", "patients", s, "protocol"] b2
        (handleRequest Method.POST ["api", "patients"] b st now noFail).2 t2 noFail =
      (⟨200, RespBody.protocolObj (some ⟨st.nextPatientId, some "F8HPS",
          some "Fistula", some "500 ml/min", some "300 ml/min", some "4 hours",
          now⟩)⟩,
        (handleRequest Method.POST ["api", "patients"] b st now noFail).2) := by
  have htr : (jsTruthy b.name && jsTruthy b.familyname && jsTruthy b.birthdate)
      = true := by
    simp [hn, hf, hb, jsTruthy, hn2, hf2, hb2]
  have hpost : handleRequest Method.POST ["api", "patients"] b st now noFail =
      (⟨201, RespBody.patientObj ⟨st.nextPatientId, nm, fam, bd⟩⟩,
        { patients := st.patients ++ [⟨st.nextPatientId, nm, fam, bd⟩]
          protocols := st.protocols ++ [⟨st.nextPatientId, some "F8HPS",
            some "Fistula", some "500 ml/min", some "300 ml/min",
            some "4 hours", now⟩]
          medications := st.medications
          labResults := st.labResults
          nextPatientId := st.nextPatientId + 1
          nextMedId := st.nextMedId
          nextLabId := st.nextLabId }) := by
    simp [handleRequest, routeRequest, postPatientRoute, jsTruthy, runQuery,
      executeQuery, noFail, hn, hf, hb, hn2, hf2, hb2, DEFAULT_PROTOCOL]
  have hold : st.protocols.filter
      (fun r => r.patient_id == st.nextPatientId) = [] := by
    rw [List.filter_eq_nil_iff]
    intro r hr
    have hlt := hwf r hr
    simp only [beq_iff_eq]
    omega
  have hfor : protocolsFor
      (handleRequest Method.POST ["api", "patients"] b st now noFail).2
        st.nextPatientId =
      [⟨st.nextPatientId, some "F8HPS", some "Fistula", some "500 ml/min",
        some "300 ml/min", some "4 hours", now⟩] := by
    rw [hpost]
    simp [protocolsFor, List.filter_append, hold]
  refine ⟨by rw [hpost], hfor, ?_⟩
  rw [hpost] at hfor ⊢
  simp [handleRequest, routeRequest, hs, getProtocolRoute, runQuery,
    executeQuery, noFail, hfor]

/-- Witness for C1: creating the first patient at the empty store. -/
theorem post_patient_seeds_default_protocol_witness :
    ((⟨some "A", some "B", some "2000-01-01", none, none, none, none, none,
        none, none⟩ : Body).name = some "A") ∧
    ("A" ≠ "") ∧ (emptyStore.WFProtocolIds) ∧
    (parseIntJS "1" = some emptyStore.nextPatientId) ∧
    (handleRequest Method.POST ["api", "patients"]
        ⟨some "A", some "B", some "2000-01-01", none, none, none, none, none,
          none, none⟩ emptyStore 5 noFail).1 =
      ⟨201, RespBody.patientObj ⟨emptyStore.nextPatientId, "A", "B",
        "2000-01-01"⟩⟩ ∧
    protocolsFor (handleRequest Method.POST ["api", "patients"]
        ⟨some "A", some "B", some "2000-01-01", none, none, none, none, none,
          none, none⟩ emptyStore 5 noFail).2 emptyStore.nextPatientId =
      [⟨emptyStore.nextPatientId, some "F8HPS", some "Fistula",
        some "500 ml/min", some "300 ml/min", some "4 hours", 5⟩] ∧
    handleRequest Method.GET ["api", "patients", "1", "protocol"] emptyBody
        (handleRequest Method.POST ["api", "patients"]
          ⟨some "A", some "B", some "2000-01-01", none, none, none, none, none,
            none, none⟩ emptyStore 5 noFail).2 9 noFail =
      (⟨200, RespBody.protocolObj (some ⟨emptyStore.nextPatientId, some "F8HPS",
          some "Fistula", some "500 ml/min", some "300 ml/min", some "4 hours",
          5⟩)⟩,
        (handleRequest Method.POST ["api", "patients"]
          ⟨some "A", some "B", some "2000-01-01", none, none, none, none, none,
            none, none⟩ emptyStore 5 noFail).2) := by
  have h := post_patient_seeds_default_protocol
    ⟨some "A", some "B", some "2000-01-01", none, none, none, none, none,
      none, none⟩ emptyBody emptyStore 5 9 "A" "B" "2000-01-01" "1"
    rfl (by decide) rfl (by decide) rfl (by decide)
    (fun r hr => absurd hr (List.not_mem_nil r)) (by decide)
  exact ⟨rfl, by decide, fun r hr => absurd hr (List.not_mem_nil r), by decide,
    h.1, h.2.1, h.2.2⟩

/-- Evaluation of the protocol PUT route: always 204, and the Protocols
table is mapped through the in-place field overwrite. -/
theorem handle_put_protocol (s : String) (n : Int) (b : Body) (st : Store)
    (t : Nat) (hs : parseIntJS s = some n) :
    handleRequest Method.PUT ["api", "patients", s, "protocol"] b st t noFail =
      (⟨204, RespBody.empty⟩,
        { st with protocols := st.protocols.map (protocolUpdate n b t) }) := by
  simp [handleRequest, routeRequest, hs, putProtocolRoute, runQuery,
    executeQuery, noFail]

/-- After the overwrite, every row of this patient carries exactly the
body's five field values. -/
theorem overwritten_map_update (n : Int) (b : Body) (t : Nat)
    (l : List ProtocolRow) :
    overwritten n b (l.map (protocolUpdate n b t)) := by
  intro r hr hpid
  rcases List.mem_map.mp hr with ⟨r0, _, rfl⟩
  by_cases h0 : r0.patient_id = n
  · simp [protocolUpdate, h0]
  · simp [protocolUpdate, h0] at hpid

/-- Re-applying the overwrite changes nothing but the timestamp. -/
theorem eraseTs_update_update (n : Int) (b : Body) (t1 t2 : Nat)
    (r : ProtocolRow) :
    eraseTs (protocolUpdate n b t2 (protocolUpdate n b t1 r)) =
      eraseTs (protocolUpdate n b t1 r) := by
  by_cases h : r.patient_id = n <;> simp [protocolUpdate, h, eraseTs]

/-- C4: PUT /api/patients/:id/protocol answers 204, overwrites all five
editable fields of the patient's Protocols row, and is idempotent:
running the same PUT twice leaves the same Protocols rows as running it
once, the update timestamp aside. -/
theorem put_protocol_idempotent (s : String) (n : Int) (b : Body)
    (st st1 st2 : Store) (r1 r2 : Response) (t1 t2 : Nat)
    (hs : parseIntJS s = some n)
    (h1 : handleRequest Method.PUT ["api", "patients", s, "protocol"] b st t1
      noFail = (r1, st1))
    (h2 : handleRequest Method.PUT ["api", "patients", s, "protocol"] b st1 t2
      noFail = (r2, st2)) :
    r1 = ⟨204, RespBody.empty⟩ ∧ r2 = ⟨204, RespBody.empty⟩ ∧
    st2.protocols.map eraseTs = st1.protocols.map eraseTs ∧
    overwritten n b st1.protocols := by
  rw [handle_put_protocol s n b st t1 hs] at h1
  injection h1 with hr1 hst1
  subst hst1
  rw [handle_put_protocol s n b _ t2 hs] at h2
  injection h2 with hr2 hst2
  subst hst2
  have key : ((st.protocols.map (protocolUpdate n b t1)).map
      (protocolUpdate n b t2)).map eraseTs =
      (st.protocols.map (protocolUpdate n b t1)).map eraseTs := by
    simp only [List.map_map]
    congr 1
    funext r
    exact eraseTs_update_update n b t1 t2 r
  exact ⟨hr1.symm, hr2.symm, by simpa using key,
    overwritten_map_update n b t1 st.protocols⟩

/-- Witness for C4: the same payload applied twice to a two-row
Protocols table. -/
theorem put_protocol_idempotent_witness :
    (parseIntJS "1" = some 1) ∧
    (handleRequest Method.PUT ["api", "patients", "1", "protocol"]
        ⟨none, none, none, none, none, some "D2", some "Graft", some "600",
          some "350", some "3.5h"⟩
        ⟨[], [⟨1, some "F8HPS", some "Fistula", some "500 ml/min",
            some "300 ml/min", some "4 hours", 0⟩,
          ⟨2, some "F8HPS", some "Fistula", some "500 ml/min",
            some "300 ml/min", some "4 hours", 0⟩], [], [], 3, 1, 1⟩ 5 noFail =
      (⟨204, RespBody.empty⟩,
        ⟨[], [⟨1, some "D2", some "Graft", some "600", some "350", some "3.5h", 5⟩,
          ⟨2, some "F8HPS", some "Fistula", some "500 ml/min",
            some "300 ml/min", some "4 hours", 0⟩], [], [], 3, 1, 1⟩)) ∧
    (handleRequest Method.PUT ["api", "patients", "1", "protocol"]
        ⟨none, none, none, none, none, some "D2", some "Graft", some "600",
          some "350", some "3.5h"⟩
        ⟨[], [⟨1, some "D2", some "Graft", some "600", some "350", some "3.5h", 5⟩,
          ⟨2, some "F8HPS", some "Fistula", some "500 ml/min",
            some "300 ml/min", some "4 hours", 0⟩], [], [], 3, 1, 1⟩ 9 noFail =
      (⟨204, RespBody.empty⟩,
        ⟨[], [⟨1, some "D2", some "Graft", some "600", some "350", some "3.5h", 9⟩,
          ⟨2, some "F8HPS", some "Fistula", some "500 ml/min",
            some "300 ml/min", some "4 hours", 0⟩], [], [], 3, 1, 1⟩)) ∧
    ((⟨[], [⟨1, some "D2", some "Graft", some "600", some "350", some "3.5h", 9⟩,
        ⟨2, some "F8HPS", some "Fistula", some "500 ml/min",
          some "300 ml/min", some "4 hours", 0⟩], [], [], 3, 1, 1⟩ :
        Store).protocols.map eraseTs =
      (⟨[], [⟨1, some "D2", some "Graft", some "600", some "350", some "3.5h", 5⟩,
        ⟨2, some "F8HPS", some "Fistula", some "500 ml/min",
          some "300 ml/min", some "4 hours", 0⟩], [], [], 3, 1, 1⟩ :
        Store).protocols.map eraseTs) ∧
    overwritten 1
      ⟨none, none, none, none, none, some "D2", some "Graft", some "600",
        some "350", some "3.5h"⟩
      (⟨[], [⟨1, some "D2", some "Graft", some "600", some "350", some "3.5h", 5⟩,
        ⟨2, some "F8HPS", some "Fistula", some "500 ml/min",
          some "300 ml/min", some "4 hours", 0⟩], [], [], 3, 1, 1⟩ :
        Store).protocols := by
  have h := put_protocol_idempotent "1" 1
    ⟨none, none, none, none, none, some "D2", some "Graft", some "600",
      some "350", some "3.5h"⟩
    ⟨[], [⟨1, some "F8HPS", some "Fistula", some "500 ml/min",
        some "300 ml/min", some "4 hours", 0⟩,
      ⟨2, some "F8HPS", some "Fistula", some "500 ml/min",
        some "300 ml/min", some "4 hours", 0⟩], [], [], 3, 1, 1⟩
    ⟨[], [⟨1, some "D2", some "Graft", some "600", some "350", some "3.5h", 5⟩,
      ⟨2, some "F8HPS", some "Fistula", some "500 ml/min",
        some "300 ml/min", some "4 hours", 0⟩], [], [], 3, 1, 1⟩
    ⟨[], [⟨1, some "D2", some "Graft", some "600", some "350", some "3.5h", 9⟩,
      ⟨2, some "F8HPS", some "Fistula", some "500 ml/min",
        some "300 ml/min", some "4 hours", 0⟩], [], [], 3, 1, 1⟩
    ⟨204, RespBody.empty⟩ ⟨204, RespBody.empty⟩ 5 9
    (by decide) (by decide) (by decide)
  exact ⟨by decide, by decide, by decide, h.2.2.1, h.2.2.2⟩

/-- C10: PUT /api/patients/:id/protocol performs no validation: for
every body (also one with all five fields absent) and every id (also
one with no Protocols row) it answers 204, and each field absent from
the body is stored as NULL in every row of that patient. -/
theorem put_protocol_no_validation_204 (s : String) (n : Int) (b : Body)
    (st : Store) (now : Nat) (hs : parseIntJS s = some n) :
    (handleRequest Method.PUT ["api", "patients", s, "protocol"] b st now
      noFail).1 = ⟨204, RespBody.empty⟩ ∧
    overwritten n b
      (handleRequest Method.PUT ["api", "patients", s, "protocol"] b st now
        noFail).2.protocols := by
  rw [handle_put_protocol s n b st now hs]
  exact ⟨rfl, overwritten_map_update n b now st.protocols⟩

/-- Witness for C10: the all-absent body nulls out an existing row and
still draws a 204. -/
theorem put_protocol_no_validation_204_witness :
    (parseIntJS "1" = some 1) ∧
    (handleRequest Method.PUT ["api", "patients", "1", "protocol"] emptyBody
        ⟨[], [⟨1, some "F8HPS", some "Fistula", some "500 ml/min",
          some "300 ml/min", some "4 hours", 0⟩], [], [], 2, 1, 1⟩ 5
        noFail).1 = ⟨204, RespBody.empty⟩ ∧
    overwritten 1 emptyBody
      (handleRequest Method.PUT ["api", "patients", "1", "protocol"] emptyBody
        ⟨[], [⟨1, some "F8HPS", some "Fistula", some "500 ml/min",
          some "300 ml/min", some "4 hours", 0⟩], [], [], 2, 1, 1⟩ 5
        noFail).2.protocols := by
  have h := put_protocol_no_validation_204 "1" 1 emptyBody
    ⟨[], [⟨1, some "F8HPS", some "Fistula", some "500 ml/min",
      some "300 ml/min", some "4 hours", 0⟩], [], [], 2, 1, 1⟩ 5 (by decide)
  exact ⟨by decide, h.1, h.2⟩

/-- C6: every non-OPTIONS request under /api whose method and path pair
matches no route of the worker — in particular any request to
/api/patients/:id/sessions, which the client issues but no route
serves — is answered with 404 and the body with error "Route not
found", and the store is left unchanged. -/
theorem unmatched_route_404 (m : Method) (rest : List String) (b : Body)
    (st : Store) (now : Nat) (dbFail : Nat → Option String)
    (hm : m ≠ Method.OPTIONS)
    (hr : routeMatches m rest = false) :
    handleRequest m ("api" :: rest) b st now dbFail =
      (⟨404, RespBody.errorObj "Route not found"⟩, st) := by
  suffices h : routeRequest m rest b st now dbFail =
      Except.ok (routeNotFound st) by
    simp [handleRequest, hm, h, routeNotFound]
  rcases rest with _ | ⟨s0, rest1⟩
  · rfl
  rcases rest1 with _ | ⟨s1, rest2⟩
  · by_cases h0 : s0 = "patients"
    · subst h0
      simp only [routeMatches] at hr
      cases m <;> simp_all [routeRequest]
    · simp [routeRequest, h0]
  by_cases h0 : s0 = "patients"
  · subst h0
    cases hp : parseIntJS s1 with
    | none => simp [routeRequest, hp]
    | some n =>
      rcases rest2 with _ | ⟨s2, rest3⟩
      · simp only [routeMatches, hp] at hr
        cases m <;> simp_all [routeRequest]
      rcases rest3 with _ | ⟨s3, rest4⟩
      · simp only [routeMatches, hp] at hr
        by_cases h2 : s2 = "medications"
        · subst h2
          cases m <;> simp_all [routeRequest]
        by_cases h3 : s2 = "labs"
        · subst h3
          cases m <;> simp_all [routeRequest]
        by_cases h4 : s2 = "protocol"
        · subst h4
          cases m <;> simp_all [routeRequest]
        simp [routeRequest, hp, h2, h3, h4]
      · simp [routeRequest, hp]
  · simp [routeRequest, h0]

/-- Witness for C6: the client's GET /api/patients/1/sessions request,
which no route serves. -/
theorem unmatched_route_404_witness :
    (Method.GET ≠ Method.OPTIONS) ∧
    (routeMatches Method.GET ["patients", "1", "sessions"] = false) ∧
    handleRequest Method.GET ["api", "patients", "1", "sessions"] emptyBody
        emptyStore 0 noFail =
      (⟨404, RespBody.errorObj "Route not found"⟩, emptyStore) :=
  ⟨by decide, by decide,
    unmatched_route_404 Method.GET ["patients", "1", "sessions"] emptyBody
      emptyStore 0 noFail (by decide) (by decide)⟩

theorem appendsOnly_refl (st : Store) : appendsOnly st st :=
  ⟨⟨[], by simp⟩, ⟨[], by simp⟩, ⟨[], by simp⟩⟩

theorem appendsOnly_getPatientsRoute (st : Store) (dbFail : Nat → Option String) :
    appendsOnly st (resultStore (getPatientsRoute st dbFail)) := by
  cases h : dbFail 0 <;>
    simp [getPatientsRoute, runQuery, executeQuery, h, resultStore,
      appendsOnly_refl]

theorem appendsOnly_postPatientRoute (b : Body) (st : Store) (now : Nat)
    (dbFail : Nat → Option String) :
    appendsOnly st (resultStore (postPatientRoute b st now dbFail)) := by
  cases hc : (jsTruthy b.name && jsTruthy b.familyname && jsTruthy b.birthdate)
  · simp only [postPatientRoute, hc, Bool.false_eq_true, if_false]
    exact appendsOnly_refl st
  · cases h0 : dbFail 0
    · cases h1 : dbFail 1
      · simp only [postPatientRoute, hc, if_true, runQuery, executeQuery, h0,
          h1, resultStore]
        exact ⟨⟨_, rfl⟩, ⟨[], by simp⟩, ⟨[], by simp⟩⟩
      · simp only [postPatientRoute, hc, if_true, runQuery, executeQuery, h0,
          h1, resultStore]
        exact ⟨⟨_, rfl⟩, ⟨[], by simp⟩, ⟨[], by simp⟩⟩
    · simp only [postPatientRoute, hc, if_true, runQuery, executeQuery, h0,
        resultStore]
      exact appendsOnly_refl st

theorem appendsOnly_getPatientRoute (n : Int) (st : Store)
    (dbFail : Nat → Option String) :
    appendsOnly st (resultStore (getPatientRoute n st dbFail)) := by
  cases h : dbFail 0 <;>
    cases hfl : st.patients.filter (fun p => p.id == n) <;>
      simp [getPatientRoute, runQuery, executeQuery, h, hfl, resultStore,
        appendsOnly_refl]

theorem appendsOnly_getMedicationsRoute (n : Int) (st : Store)
    (dbFail : Nat → Option String) :
    appendsOnly st (resultStore (getMedicationsRoute n st dbFail)) := by
  cases h : dbFail 0 <;>
    simp [getMedicationsRoute, runQuery, executeQuery, h, resultStore,
      appendsOnly_refl]

theorem appendsOnly_postMedicationRoute (n : Int) (b : Body) (st : Store)
    (now : Nat) (dbFail : Nat → Option String) :
    appendsOnly st (resultStore (postMedicationRoute n b st now dbFail)) := by
  cases hc : (jsTruthy b.name && jsTruthy b.dosage)
  · simp only [postMedicationRoute, hc, Bool.false_eq_true, if_false]
    exact appendsOnly_refl st
  · cases h0 : dbFail 0
    · simp only [postMedicationRoute, hc, if_true, runQuery, executeQuery, h0,
        resultStore]
      exact ⟨⟨[], by simp⟩, ⟨_, rfl⟩, ⟨[], by simp⟩⟩
    · simp only [postMedicationRoute, hc, if_true, runQuery, executeQuery, h0,
        resultStore]
      exact appendsOnly_refl st

theorem appendsOnly_getLabsRoute (n : Int) (st : Store)
    (dbFail : Nat → Option String) :
    appendsOnly st (resultStore (getLabsRoute n st dbFail)) := by
  cases h : dbFail 0 <;>
    simp [getLabsRoute, runQuery, executeQuery, h, resultStore,
      appendsOnly_refl]

theorem appendsOnly_postLabRoute (n : Int) (b : Body) (st : Store)
    (now : Nat) (dbFail : Nat → Option String) :
    appendsOnly st (resultStore (postLabRoute n b st now dbFail)) := by
  cases hc : (jsTruthy b.name && jsTruthy b.result)
  · simp only [postLabRoute, hc, Bool.false_eq_true, if_false]
    exact appendsOnly_refl st
  · cases h0 : dbFail 0
    · simp only [postLabRoute, hc, if_true, runQuery, executeQuery, h0,
        resultStore]
      exact ⟨⟨[], by simp⟩, ⟨[], by simp⟩, ⟨_, rfl⟩⟩
    · simp only [postLabRoute, hc, if_true, runQuery, executeQuery, h0,
        resultStore]
      exact appendsOnly_refl st

theorem appendsOnly_getProtocolRoute (n : Int) (st : Store)
    (dbFail : Nat → Option String) :
    appendsOnly st (resultStore (getProtocolRoute n st dbFail)) := by
  cases h : dbFail 0 <;>
    simp [getProtocolRoute, runQuery, executeQuery, h, resultStore,
      appendsOnly_refl]

theorem appendsOnly_putProtocolRoute (n : Int) (b : Body) (st : Store)
    (now : Nat) (dbFail : Nat → Option String) :
    appendsOnly st (resultStore (putProtocolRoute n b st now dbFail)) := by
  cases h : dbFail 0
  · simp only [putProtocolRoute, runQuery, executeQuery, h, resultStore]
    exact ⟨⟨[], by simp⟩, ⟨[], by simp⟩, ⟨[], by simp⟩⟩
  · simp only [putProtocolRoute, runQuery, executeQuery, h, resultStore]
    exact appendsOnly_refl st

theorem appendsOnly_routeRequest (m : Method) (rest : List String) (b : Body)
    (st : Store) (now : Nat) (dbFail : Nat → Option String) :
    appendsOnly st (resultStore (routeRequest m rest b st now dbFail)) := by
  rcases rest with _ | ⟨s0, _ | ⟨s1, _ | ⟨s2, _ | ⟨s3, rest4⟩⟩⟩⟩
  · exact appendsOnly_refl st
  · simp only [routeRequest]
    split_ifs <;> first
      | exact appendsOnly_getPatientsRoute st dbFail
      | exact appendsOnly_postPatientRoute b st now dbFail
      | simp [resultStore, routeNotFound, appendsOnly_refl]
  · simp only [routeRequest]
    split_ifs <;>
      (cases hp : parseIntJS s1 <;> try simp only [hp]) <;>
      first
        | exact appendsOnly_getPatientRoute _ st dbFail
        | simp [resultStore, routeNotFound, appendsOnly_refl]
  · simp only [routeRequest]
    split_ifs <;>
      (cases hp : parseIntJS s1 <;> try simp only [hp]) <;>
      first
        | exact appendsOnly_getMedicationsRoute _ st dbFail
        | exact appendsOnly_postMedicationRoute _ b st now dbFail
        | exact appendsOnly_getLabsRoute _ st dbFail
        | exact appendsOnly_postLabRoute _ b st now dbFail
        | exact appendsOnly_getProtocolRoute _ st dbFail
        | exact appendsOnly_putProtocolRoute _ b st now dbFail
        | simp [resultStore, routeNotFound, appendsOnly_refl]
  · simp only [routeRequest]
    split_ifs <;>
      (cases hp : parseIntJS s1 <;> try simp only [hp]) <;>
      simp [resultStore, routeNotFound, appendsOnly_refl]

/-- C8: Medications and LabResults (and Patients) are append-only: every
row stored before a request is still stored, unchanged and in place,
after it; no route ever rewrites those tables in place (Protocols is
the only table updated in place). -/
theorem handler_append_only (m : Method) (segs : List String) (b : Body)
    (st : Store) (now : Nat) (dbFail : Nat → Option String) :
    appendsOnly st (handleRequest m segs b st now dbFail).2 := by
  unfold handleRequest
  split_ifs
  · exact appendsOnly_refl st
  · exact appendsOnly_refl st
  · have h := appendsOnly_routeRequest m (segs.drop 1) b st now dbFail
    cases hrr : routeRequest m (segs.drop 1) b st now dbFail with
    | ok r =>
      rcases r with ⟨resp, st1⟩
      rw [hrr] at h
      simpa [resultStore] using h
    | error e =>
      rcases e with ⟨msg, st1⟩
      rw [hrr] at h
      simpa [resultStore] using h

end MedProSana
